import Mathlib

/-!
Verification development for the `pgwizard` connection-pool library
(`src/pgwizard/connection.py`).

The Python source is embedded shallowly:

* `datetime.datetime.now()` is an explicit `now : Nat` argument to every
  operation that reads the clock; `datetime.timedelta(seconds=i)` is a `Nat`.
* An underlying psycopg2 session is a `Session` record carrying an identifier
  and its `autocommit` flag (the only driver-session attribute the source sets).
* The Python dicts `self._master` / `self._slave` become functions
  `String → Option _`; a lookup of an absent key raises Python's `KeyError`,
  embedded as the error value `PyErr.keyError`.
* `random.choice(seq)` is embedded by passing the sampled randomness as an
  explicit `k : Nat`: the chosen index is `k % seq.length` (uniform when `k`
  is uniform over `0..seq.length-1`), and `random.choice` on an empty
  sequence raises `IndexError` (`PyErr.indexError`).
* The driver calls an operation performs are recorded in an event trace:
  probing a session (`cursor()`/`execute("SELECT 1")`), committing,
  attempting `psycopg2.connect`, closing a session, and — for the slave
  getters — which slot `random.choice` picked.
* A Python exception escaping the method is an `Except.error` value; because
  the source mutates the pool dict in place before the probe, every operation
  also returns the pool as it stands when the method exits, normally or not.
-/

/-- An underlying psycopg2 session: an identity plus the `autocommit`
attribute assigned right after `psycopg2.connect` in the source. -/
structure Session where
  sid : Nat
  autocommit : Bool
deriving DecidableEq, Repr

/-- Python exceptions that escape the pool's methods: `KeyError` from a dict
lookup of an unregistered name, `IndexError` from `random.choice` on an empty
sequence, and a failure of `psycopg2.connect` (the spec's `ConnectFailure`). -/
inductive PyErr where
  | keyError
  | indexError
  | connectFailed
deriving DecidableEq, Repr

/-- Driver-level events performed by one pool operation, in order. -/
inductive Event where
  /-- Probe `cursor()` + `execute("SELECT 1")` on the session `sid`; `ok` is whether
  the probe succeeded. A slot whose cached connection is `None` produces no
  probe event: `None.cursor()` raises before any round trip. -/
  | probe (sid : Nat) (ok : Bool)
  /-- Call `commit()` on the session `sid`. -/
  | commit (sid : Nat)
  /-- Call `psycopg2.connect(...)`; `ok` is whether it succeeded. -/
  | connectAttempt (ok : Bool)
  /-- Call `close()` on the session `sid`. -/
  | close (sid : Nat)
  /-- Selection by `random.choice` of index `i` of the slave list. -/
  | chooseSlave (i : Nat)
deriving DecidableEq, Repr

/-- One server entry: the dict literal built by `set_master_database_server`
and `add_slave_database_server` (connection parameters, the two cached
sessions, and the two health-check expiration timestamps). -/
structure Slot where
  database : String
  host : String
  port : Nat
  user : String
  password : String
  connection : Option Session
  transactional_connection : Option Session
  connection_test_expiration_time : Option Nat
  transactional_connection_test_expiration_time : Option Nat
deriving DecidableEq, Repr

/-- A fresh slot for the given parameters: both cached connections and both
expiration timestamps unset, exactly as the source's dict literal. -/
def Slot.fresh (database host : String) (port : Nat) (user password : String) : Slot :=
  { database := database, host := host, port := port, user := user, password := password
    connection := none, transactional_connection := none
    connection_test_expiration_time := none
    transactional_connection_test_expiration_time := none }

/-- Class `PGWizardConnection`: wraps whatever `master['connection']` holds when the
getter returns — possibly `None` (the source never checks). -/
structure PGWizardConnection where
  _connection : Option Session
deriving DecidableEq, Repr

/-- Class `PGWizardTransactionalConnection`: like `PGWizardConnection`, for the
transactional cached session. -/
structure PGWizardTransactionalConnection where
  _connection : Option Session
deriving DecidableEq, Repr

/-- The pool: the check interval (seconds) and the two dicts keyed by name. -/
structure PGWizardConnectionPool where
  connection_test_interval : Nat
  master : String → Option Slot
  slave : String → Option (List Slot)

namespace PGWizardConnectionPool

/-- Constructor `PGWizardConnectionPool(connection_test_interval_in_seconds)`. -/
def init (connection_test_interval_in_seconds : Nat) : PGWizardConnectionPool :=
  { connection_test_interval := connection_test_interval_in_seconds
    master := fun _ => none
    slave := fun _ => none }

/-- Store `slot` under `name` in the master dict (`self._master[name] = slot`,
or an in-place mutation of the dict already stored there). -/
def storeMaster (p : PGWizardConnectionPool) (name : String) (slot : Slot) :
    PGWizardConnectionPool :=
  { p with master := fun n => if n = name then some slot else p.master n }

/-- Store `slaves` under `name` in the slave dict. -/
def storeSlaves (p : PGWizardConnectionPool) (name : String) (slaves : List Slot) :
    PGWizardConnectionPool :=
  { p with slave := fun n => if n = name then some slaves else p.slave n }

/-- Method `set_master_database_server`: overwrite the whole entry for `name` with a
fresh slot.  The body is a single dict assignment: no driver call is made, so
the event trace is empty. -/
def set_master_database_server (p : PGWizardConnectionPool) (name database host : String)
    (port : Nat) (user password : String) : PGWizardConnectionPool × List Event :=
  (p.storeMaster name (Slot.fresh database host port user password), [])

/-- Method `add_slave_database_server`: append a fresh slot to the (possibly absent,
then created empty) slave list for `name`.  No driver call is made. -/
def add_slave_database_server (p : PGWizardConnectionPool) (name database host : String)
    (port : Nat) (user password : String) : PGWizardConnectionPool × List Event :=
  let slaves := (p.slave name).getD []
  (p.storeSlaves name (slaves ++ [Slot.fresh database host port user password]), [])

end PGWizardConnectionPool

/-- Result of one acquisition: the returned value or the escaped exception,
the pool as the method leaves it (mutations persist even when an exception
propagates), and the driver events performed. -/
structure AcqRes (α : Type) where
  value : Except PyErr α
  pool : PGWizardConnectionPool
  trace : List Event

namespace PGWizardConnectionPool

/-- The health-check-and-reconnect body shared verbatim by
`get_master_connection` and `get_slave_connection` (lines 122–135 and
141–154 of the source are identical up to the variable name): given the
slot, the clock, the probe outcome `probeOk` the driver would give for an
existing session, and the outcome of `psycopg2.connect` (`some sid` = a new
session, `none` = the connect raises), return the possibly escaped
exception, the slot as left behind, and the events. -/
def checkPlain (interval : Nat) (slot : Slot) (now : Nat) (probeOk : Bool)
    (connectRes : Option Nat) : Except PyErr PGWizardConnection × Slot × List Event :=
  let stale := match slot.connection_test_expiration_time with
    | none => true
    | some e => decide (e < now)
  if stale then
    let slot1 := { slot with connection_test_expiration_time := some (now + interval) }
    match slot1.connection, probeOk with
    | some s, true =>
      (.ok ⟨some s⟩, slot1, [.probe s.sid true])
    | c, _ =>
      let failTrace := match c with
        | some s => [Event.probe s.sid false]
        | none => []
      match connectRes with
      | some sid =>
        let s : Session := ⟨sid, true⟩
        (.ok ⟨some s⟩, { slot1 with connection := some s },
          failTrace ++ [.connectAttempt true])
      | none =>
        (.error .connectFailed, slot1, failTrace ++ [.connectAttempt false])
  else
    (.ok ⟨slot.connection⟩, slot, [])

/-- The transactional counterpart (lines 160–175 and 181–196): same shape,
but it uses the transactional cached session and timestamp, commits after a
successful probe, and sets `autocommit = False` on a new session. -/
def checkTransactional (interval : Nat) (slot : Slot) (now : Nat) (probeOk : Bool)
    (connectRes : Option Nat) :
    Except PyErr PGWizardTransactionalConnection × Slot × List Event :=
  let stale := match slot.transactional_connection_test_expiration_time with
    | none => true
    | some e => decide (e < now)
  if stale then
    let slot1 := { slot with
      transactional_connection_test_expiration_time := some (now + interval) }
    match slot1.transactional_connection, probeOk with
    | some s, true =>
      (.ok ⟨some s⟩, slot1, [.probe s.sid true, .commit s.sid])
    | c, _ =>
      let failTrace := match c with
        | some s => [Event.probe s.sid false]
        | none => []
      match connectRes with
      | some sid =>
        let s : Session := ⟨sid, false⟩
        (.ok ⟨some s⟩, { slot1 with transactional_connection := some s },
          failTrace ++ [.connectAttempt true])
      | none =>
        (.error .connectFailed, slot1, failTrace ++ [.connectAttempt false])
  else
    (.ok ⟨slot.transactional_connection⟩, slot, [])

/-- Method `get_master_connection(name)`. -/
def get_master_connection (p : PGWizardConnectionPool) (name : String) (now : Nat)
    (probeOk : Bool) (connectRes : Option Nat) : AcqRes PGWizardConnection :=
  match p.master name with
  | none => ⟨.error .keyError, p, []⟩
  | some slot =>
    let (v, slot', tr) := checkPlain p.connection_test_interval slot now probeOk connectRes
    ⟨v, p.storeMaster name slot', tr⟩

/-- Method `get_master_transactional_connection(name)`. -/
def get_master_transactional_connection (p : PGWizardConnectionPool) (name : String)
    (now : Nat) (probeOk : Bool) (connectRes : Option Nat) :
    AcqRes PGWizardTransactionalConnection :=
  match p.master name with
  | none => ⟨.error .keyError, p, []⟩
  | some slot =>
    let (v, slot', tr) := checkTransactional p.connection_test_interval slot now probeOk connectRes
    ⟨v, p.storeMaster name slot', tr⟩

/-- Method `get_slave_connection(name)`: `random.choice` over the slave list (the
sampled randomness is `k`; an empty list raises `IndexError`), then the same
health-check body, mutating the chosen slot in place. -/
def get_slave_connection (p : PGWizardConnectionPool) (name : String) (k : Nat)
    (now : Nat) (probeOk : Bool) (connectRes : Option Nat) : AcqRes PGWizardConnection :=
  match p.slave name with
  | none => ⟨.error .keyError, p, []⟩
  | some slaves =>
    match slaves.get? (k % slaves.length) with
    | none => ⟨.error .indexError, p, []⟩
    | some slot =>
      let i := k % slaves.length
      let (v, slot', tr) := checkPlain p.connection_test_interval slot now probeOk connectRes
      ⟨v, p.storeSlaves name (slaves.set i slot'), .chooseSlave i :: tr⟩

/-- Method `get_slave_transactional_connection(name)`. -/
def get_slave_transactional_connection (p : PGWizardConnectionPool) (name : String)
    (k : Nat) (now : Nat) (probeOk : Bool) (connectRes : Option Nat) :
    AcqRes PGWizardTransactionalConnection :=
  match p.slave name with
  | none => ⟨.error .keyError, p, []⟩
  | some slaves =>
    match slaves.get? (k % slaves.length) with
    | none => ⟨.error .indexError, p, []⟩
    | some slot =>
      let i := k % slaves.length
      let (v, slot', tr) := checkTransactional p.connection_test_interval slot now probeOk connectRes
      ⟨v, p.storeSlaves name (slaves.set i slot'), .chooseSlave i :: tr⟩

end PGWizardConnectionPool

/-- Cursor-related failures: `attributeError` is Python's `AttributeError`
(raised when `open_cursor` runs `connection.cursor()` on a handle whose
wrapped session is `None`); `cursorStateError` is the spec's
`CursorStateError`, which no code in the source ever raises. -/
inductive CursorErr where
  | attributeError
  | cursorStateError
deriving DecidableEq, Repr

/-- Class `PGWizardCursor`: a driver cursor, identified by creation order on its
session. -/
structure PGWizardCursor where
  cursorId : Nat
deriving DecidableEq, Repr

/-- Method `PGWizardConnection.open_cursor` (lines 51–53) builds
`PGWizardCursor(self._connection)`, whose `__init__` calls
`connection.cursor()`.  On a live session the driver unconditionally creates
one more open cursor — the source performs no check; the only possible
failure is `None.cursor()` when the wrapped session is absent.
`openCursors` threads the number of driver cursors currently open on the
handle's session. -/
def PGWizardConnection.open_cursor (c : PGWizardConnection) (openCursors : Nat) :
    Except CursorErr (PGWizardCursor × Nat) :=
  match c._connection with
  | none => .error .attributeError
  | some _ => .ok (⟨openCursors⟩, openCursors + 1)

/-- Method `PGWizardCursor.close`: closes this driver cursor. -/
def PGWizardCursor.close (_c : PGWizardCursor) (openCursors : Nat) : Nat :=
  openCursors - 1

/-! ### Definitions modelled from the spec

The spec also describes a `ConnectionHandle` with an optional `max_lifetime`
(age-based expiry, §4.2 step 5) and a Flat Pool (§4.4).  Neither appears in
the code under `src/` — `get_master_connection` has no age check of any kind
and no flat-pool module is provided — so they are modelled from the spec's
words below, clearly separated from the source embedding above. -/

/-- Modelled from the spec: a session as the spec's `ConnectionHandle` sees
it, with `session_started_at` recorded so that age can be measured (§3). -/
structure SpecSession where
  sid : Nat
  started_at : Nat
  autocommit : Bool
deriving DecidableEq, Repr

/-- Modelled from the spec: the `ConnectionHandle` of §3/§4.2 — missing from
`src/` — owning at most one session, with `last_checked_at` and an optional
`max_lifetime`. -/
structure ConnectionHandle where
  transactional : Bool
  session : Option SpecSession
  last_checked_at : Option Nat
  max_lifetime : Option Nat
deriving DecidableEq, Repr

/-- Modelled from the spec: the current session's age exceeds the configured
`max_lifetime` (§4.2 step 5: "if `max_lifetime` is configured and the current
session's age exceeds it"). -/
def ConnectionHandle.expired (h : ConnectionHandle) (now : Nat) : Bool :=
  match h.session, h.max_lifetime with
  | some s, some lifetime => decide (s.started_at + lifetime < now)
  | _, _ => false

/-- Result of `ConnectionHandle.acquire`: the returned session or the
propagated connect failure, the handle afterwards, and the driver events. -/
structure HandleAcqRes where
  value : Except PyErr (Option SpecSession)
  handle : ConnectionHandle
  trace : List Event

/-- Modelled from the spec: `acquire()` of §4.2, which is absent from `src/`
in this generality (the source's getters lack step 5 entirely).  Steps:
1 — throttle: within the interval return the cached handle unchanged, unless
step 5's age expiry forces replacement "independently of the probe outcome";
2 — stamp `last_checked_at := now` before probing;
3 — probe the existing session (transactional handles commit after a
successful probe);
4 — if the probe failed (or the session is age-expired, step 5), connect a
new session with `autocommit` true for plain handles and false for
transactional ones; on connect failure the handle becomes `UNCONNECTED` and
the failure propagates. -/
def ConnectionHandle.acquire (h : ConnectionHandle) (interval now : Nat)
    (probeOk : Bool) (connectRes : Option Nat) : HandleAcqRes :=
  let throttled := match h.last_checked_at with
    | some t => decide (now - t < interval)
    | none => false
  if !h.expired now && throttled then
    ⟨.ok h.session, h, []⟩
  else
    let h1 := { h with last_checked_at := some now }
    let probeTrace := match h1.session with
      | some s =>
        if probeOk then
          Event.probe s.sid true :: (if h.transactional then [Event.commit s.sid] else [])
        else [Event.probe s.sid false]
      | none => []
    if h1.session.isSome && probeOk && !h.expired now then
      ⟨.ok h1.session, h1, probeTrace⟩
    else
      match connectRes with
      | some sid =>
        let s : SpecSession := ⟨sid, now, !h.transactional⟩
        ⟨.ok (some s), { h1 with session := some s }, probeTrace ++ [.connectAttempt true]⟩
      | none =>
        ⟨.error .connectFailed, { h1 with session := none },
          probeTrace ++ [.connectAttempt false]⟩

/-- Modelled from the spec: routing failure of the Flat Pool (§4.4). -/
inductive FlatErr where
  | noEligibleConnection
deriving DecidableEq, Repr

/-- Modelled from the spec: a Flat Pool handle, carrying its endpoint's
capability flags, its connectivity, and whether its cursor is open (§3, §4.4).
The Flat Pool implementation is not under `src/`. -/
structure FlatHandle where
  accepts_writes : Bool
  accepts_reads : Bool
  connected : Bool
  cursor_open : Bool
deriving DecidableEq, Repr

/-- Modelled from the spec: eligibility for `get_connection_for_writing_to` —
the handle "carr[ies] the matching capability flag and … currently ha[s] an
open cursor" (§4.4). -/
def writableEligible (h : FlatHandle) : Bool :=
  h.accepts_writes && h.cursor_open

/-- Modelled from the spec: `get_connection_for_writing_to(name)` of the Flat
Pool (§4.4), absent from `src/`: select uniformly at random (randomness `k`)
among handles under `name` that accept writes and have an open cursor; fail
with `NoEligibleConnectionError` if the filtered set is empty. -/
def get_connection_for_writing_to (groups : String → List FlatHandle) (name : String)
    (k : Nat) : Except FlatErr FlatHandle :=
  let eligible := (groups name).filter writableEligible
  match eligible.get? (k % eligible.length) with
  | some h => .ok h
  | none => .error .noEligibleConnection

/-! ### Concrete states used by counterexamples and witnesses -/

/-- A pool with check interval 60 whose only registration is a master under
`"a"` (no slaves anywhere). -/
def masterOnlyPool : PGWizardConnectionPool :=
  ((PGWizardConnectionPool.init 60).set_master_database_server "a" "db" "h" 5432 "u" "pw").1

/-- A pool with check interval 10 whose master `"a"` holds a cached healthy
session (id 1) that has never been health-checked. -/
def cachedMasterPool : PGWizardConnectionPool :=
  { connection_test_interval := 10
    master := fun n =>
      if n = "a" then
        some { Slot.fresh "db" "h" 5432 "u" "pw" with connection := some ⟨1, true⟩ }
      else none
    slave := fun _ => none }

/-- A pool with check interval 10 whose master `"a"` is registered but has
never connected. -/
def unconnectedMasterPool : PGWizardConnectionPool :=
  ((PGWizardConnectionPool.init 10).set_master_database_server "a" "db" "h" 5432 "u" "pw").1

/-! ### Claims -/

/-- C5: for every name that was never registered, every acquisition operation
on that name fails with the unknown-name error.  In the source each getter
begins with a dict lookup `self._master[name]` / `self._slave[name]`, so an
unregistered name raises `KeyError` — the exception the spec calls
`UnknownPoolError`. -/
theorem unknown_name_raises_key_error (p : PGWizardConnectionPool) (name : String)
    (k now : Nat) (probeOk : Bool) (connectRes : Option Nat)
    (hm : p.master name = none) (hs : p.slave name = none) :
    (p.get_master_connection name now probeOk connectRes).value = .error .keyError ∧
    (p.get_master_transactional_connection name now probeOk connectRes).value
      = .error .keyError ∧
    (p.get_slave_connection name k now probeOk connectRes).value = .error .keyError ∧
    (p.get_slave_transactional_connection name k now probeOk connectRes).value
      = .error .keyError := by
  refine ⟨?_, ?_, ?_, ?_⟩ <;>
    simp [PGWizardConnectionPool.get_master_connection,
      PGWizardConnectionPool.get_master_transactional_connection,
      PGWizardConnectionPool.get_slave_connection,
      PGWizardConnectionPool.get_slave_transactional_connection, hm, hs]

/-- Witness for C5 at a concrete pool and name. -/
theorem unknown_name_raises_key_error_witness :
    ((PGWizardConnectionPool.init 60).get_master_connection "orders" 0 true none).value
      = .error .keyError ∧
    ((PGWizardConnectionPool.init 60).get_master_transactional_connection "orders" 0 true
      none).value = .error .keyError ∧
    ((PGWizardConnectionPool.init 60).get_slave_connection "orders" 0 0 true none).value
      = .error .keyError ∧
    ((PGWizardConnectionPool.init 60).get_slave_transactional_connection "orders" 0 0 true
      none).value = .error .keyError :=
  unknown_name_raises_key_error (PGWizardConnectionPool.init 60) "orders" 0 0 true none
    rfl rfl

/-- C6 (counterexample): the name `"a"` *is* registered (it has a master slot),
yet `get_slave_connection "a"` fails with `KeyError` — exactly the failure an
entirely unregistered name `"b"` produces — and not with any distinct
no-slave-available error: registering a master never creates a slave entry,
so a name with zero slaves is indistinguishable from an unknown name for the
slave getters. -/
theorem zero_slave_failure_equals_unknown_name_failure :
    (masterOnlyPool.master "a").isSome = true ∧
    (masterOnlyPool.get_slave_connection "a" 0 0 true none).value = .error .keyError ∧
    (masterOnlyPool.get_slave_connection "b" 0 0 true none).value = .error .keyError ∧
    (masterOnlyPool.get_slave_transactional_connection "a" 0 0 true none).value
      = .error .keyError :=
  ⟨rfl, rfl, rfl, rfl⟩

/-- C6 (amended): for a registered name with no registered slaves, the slave
dict has no entry for the name, so `get_slave_connection` and
`get_slave_transactional_connection` fail with `KeyError` — the same
exception as for an unregistered name — rather than a distinct
`NoSlaveAvailableError`; the `IndexError` branch (`random.choice` on an empty
list) is the only other conceivable failure and needs an empty list actually
stored, which registration never produces. -/
theorem zero_slave_name_raises_key_error (p : PGWizardConnectionPool)
    (name : String) (slotm : Slot) (k now : Nat) (probeOk : Bool)
    (connectRes : Option Nat)
    (hm : p.master name = some slotm) (hs : p.slave name = none) :
    (p.get_slave_connection name k now probeOk connectRes).value = .error .keyError ∧
    (p.get_slave_transactional_connection name k now probeOk connectRes).value
      = .error .keyError ∧
    (∀ q : PGWizardConnectionPool, q.slave name = some [] →
      (q.get_slave_connection name k now probeOk connectRes).value = .error .indexError) := by
  refine ⟨?_, ?_, ?_⟩
  · simp [PGWizardConnectionPool.get_slave_connection, hs]
  · simp [PGWizardConnectionPool.get_slave_transactional_connection, hs]
  · intro q hq
    simp [PGWizardConnectionPool.get_slave_connection, hq]

/-- Witness for C6's amended theorem at a concrete pool. -/
theorem zero_slave_name_raises_key_error_witness :
    (masterOnlyPool.get_slave_connection "a" 0 0 true none).value = .error .keyError ∧
    (masterOnlyPool.get_slave_transactional_connection "a" 0 0 true none).value
      = .error .keyError ∧
    (∀ q : PGWizardConnectionPool, q.slave "a" = some [] →
      (q.get_slave_connection "a" 0 0 true none).value = .error .indexError) :=
  zero_slave_name_raises_key_error masterOnlyPool "a"
    (Slot.fresh "db" "h" 5432 "u" "pw") 0 0 true none (by decide) (by decide)

/-- C10: re-registering a master under an existing name replaces the whole
entry — fresh parameters, both cached sessions and both check timestamps
unset — performs no driver call at all (no connect, and the old sessions are
discarded without being closed), and leaves every other master entry and the
whole slave dict untouched. -/
theorem set_master_replaces_entry_and_frames (p : PGWizardConnectionPool)
    (name database host : String) (port : Nat) (user password : String) (old : Slot)
    (hold : p.master name = some old) :
    let r := p.set_master_database_server name database host port user password
    r.1.master name = some (Slot.fresh database host port user password) ∧
    (Slot.fresh database host port user password).connection = none ∧
    (Slot.fresh database host port user password).transactional_connection = none ∧
    (Slot.fresh database host port user password).connection_test_expiration_time
      = none ∧
    (Slot.fresh database host port user
      password).transactional_connection_test_expiration_time = none ∧
    (∀ n, n ≠ name → r.1.master n = p.master n) ∧
    r.1.slave = p.slave ∧
    r.2 = [] := by
  refine ⟨?_, rfl, rfl, rfl, rfl, ?_, rfl, rfl⟩
  · simp [PGWizardConnectionPool.set_master_database_server,
      PGWizardConnectionPool.storeMaster]
  · intro n hn
    simp [PGWizardConnectionPool.set_master_database_server,
      PGWizardConnectionPool.storeMaster, hn]

/-- Witness for C10: overwrite the master of `cachedMasterPool`, which holds
a cached session. -/
theorem set_master_replaces_entry_and_frames_witness :
    let r := cachedMasterPool.set_master_database_server "a" "db2" "h2" 5433 "u2" "pw2"
    r.1.master "a" = some (Slot.fresh "db2" "h2" 5433 "u2" "pw2") ∧
    (Slot.fresh "db2" "h2" 5433 "u2" "pw2").connection = none ∧
    (Slot.fresh "db2" "h2" 5433 "u2" "pw2").transactional_connection = none ∧
    (Slot.fresh "db2" "h2" 5433 "u2" "pw2").connection_test_expiration_time = none ∧
    (Slot.fresh "db2" "h2" 5433 "u2"
      "pw2").transactional_connection_test_expiration_time = none ∧
    (∀ n, n ≠ "a" → r.1.master n = cachedMasterPool.master n) ∧
    r.1.slave = cachedMasterPool.slave ∧
    r.2 = [] :=
  set_master_replaces_entry_and_frames cachedMasterPool "a" "db2" "h2" 5433 "u2" "pw2"
    { Slot.fresh "db" "h" 5432 "u" "pw" with connection := some ⟨1, true⟩ } (by decide)

/-- A fresh slot (no expiration timestamp recorded) with a live session is
probed, its timestamp advanced, and the cached session returned. -/
theorem checkPlain_fresh_ok (interval : Nat) (slot : Slot) (now : Nat) (s : Session)
    (cr : Option Nat) (hconn : slot.connection = some s)
    (hfresh : slot.connection_test_expiration_time = none) :
    PGWizardConnectionPool.checkPlain interval slot now true cr
      = (.ok ⟨some s⟩,
         { slot with connection_test_expiration_time := some (now + interval) },
         [.probe s.sid true]) := by
  simp [PGWizardConnectionPool.checkPlain, hfresh, hconn]

/-- Within the recorded expiration time nothing at all happens: the cached
session, whatever it is, is returned with no driver events. -/
theorem checkPlain_not_stale (interval : Nat) (slot : Slot) (now e : Nat)
    (probeOk : Bool) (cr : Option Nat)
    (hexp : slot.connection_test_expiration_time = some e)
    (hle : now ≤ e) :
    PGWizardConnectionPool.checkPlain interval slot now probeOk cr
      = (.ok ⟨slot.connection⟩, slot, []) := by
  have hnl : ¬ e < now := Nat.not_lt.mpr hle
  simp [PGWizardConnectionPool.checkPlain, hexp, hnl]

/-- Past the recorded expiration time, a slot holding a session is probed:
the trace opens with the probe event. -/
theorem checkPlain_stale_probes (interval : Nat) (slot : Slot) (now e : Nat)
    (s : Session) (probeOk : Bool) (cr : Option Nat)
    (hexp : slot.connection_test_expiration_time = some e) (hlt : e < now)
    (hconn : slot.connection = some s) :
    (PGWizardConnectionPool.checkPlain interval slot now probeOk cr).2.2.head?
      = some (.probe s.sid probeOk) := by
  cases probeOk <;> cases cr <;>
    simp [PGWizardConnectionPool.checkPlain, hexp, hlt, hconn]

/-- A fresh slot whose probe fails (probe outcome `false` covers both a broken
session and an absent one) and whose reconnect also fails: the exception
escapes, and the slot keeps its old cached session but carries the already
advanced expiration timestamp. -/
theorem checkPlain_fresh_connect_fails (interval : Nat) (slot : Slot) (now : Nat)
    (hfresh : slot.connection_test_expiration_time = none) :
    (PGWizardConnectionPool.checkPlain interval slot now false none).1
      = .error .connectFailed ∧
    (PGWizardConnectionPool.checkPlain interval slot now false none).2.1
      = { slot with connection_test_expiration_time := some (now + interval) } := by
  cases hc : slot.connection <;>
    simp [PGWizardConnectionPool.checkPlain, hfresh, hc]

/-- Unfolding of `get_master_connection` on a registered name: the dict
lookup succeeds and the shared health-check body runs on the slot. -/
theorem get_master_unfold (p : PGWizardConnectionPool) (name : String) (slot : Slot)
    (now : Nat) (probeOk : Bool) (cr : Option Nat) (hm : p.master name = some slot) :
    p.get_master_connection name now probeOk cr
      = ⟨(PGWizardConnectionPool.checkPlain p.connection_test_interval slot now
            probeOk cr).1,
         p.storeMaster name
           (PGWizardConnectionPool.checkPlain p.connection_test_interval slot now
             probeOk cr).2.1,
         (PGWizardConnectionPool.checkPlain p.connection_test_interval slot now
           probeOk cr).2.2⟩ := by
  simp [PGWizardConnectionPool.get_master_connection, hm]

/-- C1 (amended): with `health_check_interval = I`, a first acquisition on a
never-checked handle probes once; a second acquisition at most `I` after the
first check (so in particular strictly within `I`, but also at exactly `I`)
returns the cached session unchanged with no driver event; only an
acquisition strictly more than `I` after the last check probes again — the
source reuses while `expiration_time = last_check + I` is not strictly in the
past. -/
theorem throttle_reuse_and_reprobe (p : PGWizardConnectionPool) (name : String)
    (slot : Slot) (s : Session) (now1 now2 : Nat) (probeOk2 : Bool)
    (cr1 cr2 : Option Nat)
    (hm : p.master name = some slot)
    (hconn : slot.connection = some s)
    (hfresh : slot.connection_test_expiration_time = none) :
    ((p.get_master_connection name now1 true cr1).value = .ok ⟨some s⟩ ∧
     (p.get_master_connection name now1 true cr1).trace = [.probe s.sid true]) ∧
    (now2 ≤ now1 + p.connection_test_interval →
      ((p.get_master_connection name now1 true cr1).pool.get_master_connection
          name now2 probeOk2 cr2).value = .ok ⟨some s⟩ ∧
      ((p.get_master_connection name now1 true cr1).pool.get_master_connection
          name now2 probeOk2 cr2).trace = []) ∧
    (now1 + p.connection_test_interval < now2 →
      ((p.get_master_connection name now1 true cr1).pool.get_master_connection
          name now2 probeOk2 cr2).trace.head? = some (.probe s.sid probeOk2)) := by
  have h1 : p.get_master_connection name now1 true cr1
      = ⟨.ok ⟨some s⟩,
         p.storeMaster name
           { slot with
             connection_test_expiration_time := some (now1 + p.connection_test_interval) },
         [.probe s.sid true]⟩ := by
    rw [get_master_unfold p name slot now1 true cr1 hm,
      checkPlain_fresh_ok _ _ _ _ _ hconn hfresh]
  have h2 : (p.get_master_connection name now1 true cr1).pool.master name
      = some { slot with
        connection_test_expiration_time := some (now1 + p.connection_test_interval) } := by
    rw [h1]; simp [PGWizardConnectionPool.storeMaster]
  refine ⟨by rw [h1]; exact ⟨rfl, rfl⟩, ?_, ?_⟩
  · intro hle
    rw [get_master_unfold _ name _ now2 probeOk2 cr2 h2,
      checkPlain_not_stale _ _ now2 (now1 + p.connection_test_interval) probeOk2 cr2
        rfl hle]
    exact ⟨by simp [hconn], rfl⟩
  · intro hlt
    rw [get_master_unfold _ name _ now2 probeOk2 cr2 h2]
    exact checkPlain_stale_probes _ _ now2 (now1 + p.connection_test_interval) s
      probeOk2 cr2 rfl hlt hconn

/-- C1 (counterexample): with interval 10, the handle is checked at time 0;
a second acquisition at time 10 — exactly the interval after the last check,
so "at least `I` after" — performs no probe at all (empty trace) and returns
the cached session, where the claim requires a second probe. -/
theorem no_probe_at_exactly_interval :
    (cachedMasterPool.get_master_connection "a" 0 true none).trace
      = [.probe 1 true] ∧
    ((cachedMasterPool.get_master_connection "a" 0 true
        none).pool.get_master_connection "a" 10 true none).trace = [] ∧
    ((cachedMasterPool.get_master_connection "a" 0 true
        none).pool.get_master_connection "a" 10 true none).value
      = .ok ⟨some ⟨1, true⟩⟩ :=
  ⟨rfl, rfl, rfl⟩

/-- Witness for C1's amended theorem: reuse at 3 seconds after the check,
fresh probe at 20 seconds (interval 10). -/
theorem throttle_reuse_and_reprobe_witness :
    ((cachedMasterPool.get_master_connection "a" 0 true
        none).pool.get_master_connection "a" 3 true none).trace = [] ∧
    ((cachedMasterPool.get_master_connection "a" 0 true
        none).pool.get_master_connection "a" 20 true none).trace.head?
      = some (.probe 1 true) :=
  ⟨((throttle_reuse_and_reprobe cachedMasterPool "a"
      { Slot.fresh "db" "h" 5432 "u" "pw" with connection := some ⟨1, true⟩ }
      ⟨1, true⟩ 0 3 true none none rfl rfl rfl).2.1 (by decide)).2,
   (throttle_reuse_and_reprobe cachedMasterPool "a"
      { Slot.fresh "db" "h" 5432 "u" "pw" with connection := some ⟨1, true⟩ }
      ⟨1, true⟩ 0 20 true none none rfl rfl rfl).2.2 (by decide)⟩

/-- C3 (amended): when the probe fails and the reconnect also fails, the
connect failure is propagated and the cached session is left as it was (an
absent session stays absent — the handle stays unconnected).  But because the
source advances `connection_test_expiration_time` *before* probing, the
failed slot is treated as freshly checked: any later acquisition within the
check interval returns a wrapper around the old absent/broken session with no
probe and no reconnect attempt. -/
theorem connect_failure_propagates_but_is_cached (p : PGWizardConnectionPool)
    (name : String) (slot : Slot) (now1 now2 : Nat) (probeOk2 : Bool)
    (cr2 : Option Nat)
    (hm : p.master name = some slot)
    (hfresh : slot.connection_test_expiration_time = none)
    (hwithin : now2 ≤ now1 + p.connection_test_interval) :
    (p.get_master_connection name now1 false none).value = .error .connectFailed ∧
    ((p.get_master_connection name now1 false none).pool.master name
      = some { slot with
        connection_test_expiration_time := some (now1 + p.connection_test_interval) }) ∧
    ((p.get_master_connection name now1 false none).pool.get_master_connection
        name now2 probeOk2 cr2).value = .ok ⟨slot.connection⟩ ∧
    ((p.get_master_connection name now1 false none).pool.get_master_connection
        name now2 probeOk2 cr2).trace = [] := by
  obtain ⟨hv, hslot⟩ := checkPlain_fresh_connect_fails p.connection_test_interval
    slot now1 hfresh
  have h1v : (p.get_master_connection name now1 false none).value
      = .error .connectFailed := by
    rw [get_master_unfold p name slot now1 false none hm]
    simpa using hv
  have h1p : (p.get_master_connection name now1 false none).pool.master name
      = some { slot with
        connection_test_expiration_time := some (now1 + p.connection_test_interval) } := by
    rw [get_master_unfold p name slot now1 false none hm]
    simp [PGWizardConnectionPool.storeMaster, hslot]
  refine ⟨h1v, h1p, ?_, ?_⟩ <;>
    rw [get_master_unfold _ name _ now2 probeOk2 cr2 h1p,
      checkPlain_not_stale _ _ now2 (now1 + p.connection_test_interval) probeOk2 cr2
        rfl hwithin]

/-- C3 (counterexample): interval 10, master registered but never connected,
server down.  The first acquisition propagates the connect failure, as the
claim demands; but the very next acquisition one second later — within the
check interval, and even with the server back up — silently returns a
`PGWizardConnection` wrapping `None` with no probe and no reconnect: a
broken/absent session handed back as a good pooled connection. -/
theorem broken_session_handed_back_within_interval :
    (unconnectedMasterPool.get_master_connection "a" 0 true none).value
      = .error .connectFailed ∧
    ((unconnectedMasterPool.get_master_connection "a" 0 true
        none).pool.get_master_connection "a" 1 true (some 5)).value = .ok ⟨none⟩ ∧
    ((unconnectedMasterPool.get_master_connection "a" 0 true
        none).pool.get_master_connection "a" 1 true (some 5)).trace = [] :=
  ⟨rfl, rfl, rfl⟩

/-- Witness for C3's amended theorem at the concrete broken pool. -/
theorem connect_failure_propagates_but_is_cached_witness :
    (unconnectedMasterPool.get_master_connection "a" 0 false none).value
      = .error .connectFailed ∧
    ((unconnectedMasterPool.get_master_connection "a" 0 false none).pool.master "a"
      = some { Slot.fresh "db" "h" 5432 "u" "pw" with
          connection_test_expiration_time := some (0 + 10) }) ∧
    ((unconnectedMasterPool.get_master_connection "a" 0 false
        none).pool.get_master_connection "a" 1 true (some 5)).value
      = .ok ⟨(Slot.fresh "db" "h" 5432 "u" "pw").connection⟩ ∧
    ((unconnectedMasterPool.get_master_connection "a" 0 false
        none).pool.get_master_connection "a" 1 true (some 5)).trace = [] :=
  connect_failure_propagates_but_is_cached unconnectedMasterPool "a"
    (Slot.fresh "db" "h" 5432 "u" "pw") 0 1 true (some 5) rfl rfl (by decide)

/-- C4 (counterexample): on a handle whose session already has one open
cursor, `open_cursor` succeeds — returning a second cursor, leaving two open —
instead of failing with `CursorStateError`. -/
theorem second_cursor_opens_successfully :
    PGWizardConnection.open_cursor ⟨some ⟨1, true⟩⟩ 1
      = .ok (⟨1⟩, 2) :=
  rfl

/-- C4 (amended): `PGWizardConnection.open_cursor` enforces no single-cursor
invariant: on a handle with a session it always succeeds and just adds one
more open cursor, however many are already open, and no call path of the
source ever produces `CursorStateError` (the only possible failure is
Python's `AttributeError` from `None.cursor()` on a session-less handle). -/
theorem open_cursor_never_cursor_state_error (c : PGWizardConnection) (s : Session)
    (n : Nat) (hc : c._connection = some s) :
    c.open_cursor n = .ok (⟨n⟩, n + 1) ∧
    (∀ (c' : PGWizardConnection) (m : Nat),
      c'.open_cursor m ≠ .error .cursorStateError) := by
  refine ⟨by simp [PGWizardConnection.open_cursor, hc], ?_⟩
  intro c' m
  cases hc' : c'._connection <;> simp [PGWizardConnection.open_cursor, hc']

/-- Witness for C4's amended theorem: a handle with one open cursor opens a
second. -/
theorem open_cursor_never_cursor_state_error_witness :
    PGWizardConnection.open_cursor ⟨some ⟨7, false⟩⟩ 1 = .ok (⟨1⟩, 2) ∧
    (∀ (c' : PGWizardConnection) (m : Nat),
      c'.open_cursor m ≠ .error .cursorStateError) :=
  open_cursor_never_cursor_state_error ⟨some ⟨7, false⟩⟩ ⟨7, false⟩ 1 rfl

/-- Unfolding of `get_master_transactional_connection` on a registered name. -/
theorem get_master_transactional_unfold (p : PGWizardConnectionPool) (name : String)
    (slot : Slot) (now : Nat) (probeOk : Bool) (cr : Option Nat)
    (hm : p.master name = some slot) :
    p.get_master_transactional_connection name now probeOk cr
      = ⟨(PGWizardConnectionPool.checkTransactional p.connection_test_interval slot now
            probeOk cr).1,
         p.storeMaster name
           (PGWizardConnectionPool.checkTransactional p.connection_test_interval slot now
             probeOk cr).2.1,
         (PGWizardConnectionPool.checkTransactional p.connection_test_interval slot now
           probeOk cr).2.2⟩ := by
  simp [PGWizardConnectionPool.get_master_transactional_connection, hm]

/-- Unfolding of `get_slave_connection` on a name with slaves: `random.choice`
lands on index `k % length`, and the shared health-check body runs on that
slot, which is then written back in place. -/
theorem get_slave_unfold (p : PGWizardConnectionPool) (name : String)
    (slaves : List Slot) (slot : Slot) (k now : Nat) (probeOk : Bool) (cr : Option Nat)
    (hs : p.slave name = some slaves)
    (hget : slaves.get? (k % slaves.length) = some slot) :
    p.get_slave_connection name k now probeOk cr
      = ⟨(PGWizardConnectionPool.checkPlain p.connection_test_interval slot now
            probeOk cr).1,
         p.storeSlaves name (slaves.set (k % slaves.length)
           (PGWizardConnectionPool.checkPlain p.connection_test_interval slot now
             probeOk cr).2.1),
         .chooseSlave (k % slaves.length)
           :: (PGWizardConnectionPool.checkPlain p.connection_test_interval slot now
             probeOk cr).2.2⟩ := by
  have hget' : slaves[k % slaves.length]? = some slot := by
    simpa [List.get?_eq_getElem?] using hget
  simp [PGWizardConnectionPool.get_slave_connection, hs, hget']

/-- Unfolding of `get_slave_transactional_connection` on a name with slaves. -/
theorem get_slave_transactional_unfold (p : PGWizardConnectionPool) (name : String)
    (slaves : List Slot) (slot : Slot) (k now : Nat) (probeOk : Bool) (cr : Option Nat)
    (hs : p.slave name = some slaves)
    (hget : slaves.get? (k % slaves.length) = some slot) :
    p.get_slave_transactional_connection name k now probeOk cr
      = ⟨(PGWizardConnectionPool.checkTransactional p.connection_test_interval slot now
            probeOk cr).1,
         p.storeSlaves name (slaves.set (k % slaves.length)
           (PGWizardConnectionPool.checkTransactional p.connection_test_interval slot now
             probeOk cr).2.1),
         .chooseSlave (k % slaves.length)
           :: (PGWizardConnectionPool.checkTransactional p.connection_test_interval slot
             now probeOk cr).2.2⟩ := by
  have hget' : slaves[k % slaves.length]? = some slot := by
    simpa [List.get?_eq_getElem?] using hget
  simp [PGWizardConnectionPool.get_slave_transactional_connection, hs, hget']

/-- A fresh slot with a live transactional session, probed successfully:
probe then commit, timestamp advanced, session reused. -/
theorem checkTransactional_fresh_ok (interval : Nat) (slot : Slot) (now : Nat)
    (s : Session) (cr : Option Nat)
    (hconn : slot.transactional_connection = some s)
    (hfresh : slot.transactional_connection_test_expiration_time = none) :
    PGWizardConnectionPool.checkTransactional interval slot now true cr
      = (.ok ⟨some s⟩,
         { slot with
           transactional_connection_test_expiration_time := some (now + interval) },
         [.probe s.sid true, .commit s.sid]) := by
  simp [PGWizardConnectionPool.checkTransactional, hfresh, hconn]

/-- On a failed probe with a successful reconnect, the plain body stores and
returns a new session whose `autocommit` is `true`. -/
theorem checkPlain_fail_connects (interval : Nat) (slot : Slot) (now sid : Nat)
    (hfresh : slot.connection_test_expiration_time = none) :
    (PGWizardConnectionPool.checkPlain interval slot now false (some sid)).1
      = .ok ⟨some ⟨sid, true⟩⟩ ∧
    (PGWizardConnectionPool.checkPlain interval slot now false
      (some sid)).2.1.connection = some ⟨sid, true⟩ := by
  cases hc : slot.connection <;>
    simp [PGWizardConnectionPool.checkPlain, hfresh, hc]

/-- On a failed probe with a successful reconnect, the transactional body
stores and returns a new session whose `autocommit` is `false`. -/
theorem checkTransactional_fail_connects (interval : Nat) (slot : Slot) (now sid : Nat)
    (hfresh : slot.transactional_connection_test_expiration_time = none) :
    (PGWizardConnectionPool.checkTransactional interval slot now false (some sid)).1
      = .ok ⟨some ⟨sid, false⟩⟩ ∧
    (PGWizardConnectionPool.checkTransactional interval slot now false
      (some sid)).2.1.transactional_connection = some ⟨sid, false⟩ := by
  cases hc : slot.transactional_connection <;>
    simp [PGWizardConnectionPool.checkTransactional, hfresh, hc]

/-- A pool with interval 10 whose name `"a"` has both a master slot and one
slave slot, the master carrying a cached transactional session (id 2). -/
def bothPool : PGWizardConnectionPool :=
  { connection_test_interval := 10
    master := fun n =>
      if n = "a" then
        some { Slot.fresh "db" "h" 5432 "u" "pw" with
          transactional_connection := some ⟨2, false⟩ }
      else none
    slave := fun n =>
      if n = "a" then
        some [{ Slot.fresh "db" "h" 5432 "u" "pw" with
          transactional_connection := some ⟨2, false⟩ }]
      else none }

/-- A pool with two registered slaves under `"a"` and no master. -/
def twoSlavePool : PGWizardConnectionPool :=
  { connection_test_interval := 10
    master := fun _ => none
    slave := fun n =>
      if n = "a" then
        some [Slot.fresh "db" "hA" 5432 "u" "pw", Slot.fresh "db" "hB" 5432 "u" "pw"]
      else none }

/-- C7: whenever an acquisition establishes a brand-new session after a failed
probe, that session is created with `autocommit = true` by the plain getters
and `autocommit = false` by the transactional getters (master and slave
alike); and a successful probe on a transactional session is immediately
followed by a commit on that session — the trace is exactly probe then
commit. -/
theorem new_session_autocommit_and_probe_commit (p : PGWizardConnectionPool)
    (name : String) (slot : Slot) (slaves : List Slot) (s : Session)
    (k now sid : Nat) (cr : Option Nat)
    (hm : p.master name = some slot)
    (hs : p.slave name = some slaves)
    (hget : slaves.get? (k % slaves.length) = some slot)
    (hfresh : slot.connection_test_expiration_time = none)
    (hfreshT : slot.transactional_connection_test_expiration_time = none)
    (hsessT : slot.transactional_connection = some s) :
    (p.get_master_connection name now false (some sid)).value
      = .ok ⟨some ⟨sid, true⟩⟩ ∧
    (p.get_slave_connection name k now false (some sid)).value
      = .ok ⟨some ⟨sid, true⟩⟩ ∧
    (p.get_master_transactional_connection name now false (some sid)).value
      = .ok ⟨some ⟨sid, false⟩⟩ ∧
    (p.get_slave_transactional_connection name k now false (some sid)).value
      = .ok ⟨some ⟨sid, false⟩⟩ ∧
    (p.get_master_transactional_connection name now true cr).trace
      = [.probe s.sid true, .commit s.sid] ∧
    (p.get_slave_transactional_connection name k now true cr).trace
      = [.chooseSlave (k % slaves.length), .probe s.sid true, .commit s.sid] := by
  refine ⟨?_, ?_, ?_, ?_, ?_, ?_⟩
  · rw [get_master_unfold p name slot now false (some sid) hm]
    simpa using (checkPlain_fail_connects p.connection_test_interval slot now sid
      hfresh).1
  · rw [get_slave_unfold p name slaves slot k now false (some sid) hs hget]
    simpa using (checkPlain_fail_connects p.connection_test_interval slot now sid
      hfresh).1
  · rw [get_master_transactional_unfold p name slot now false (some sid) hm]
    simpa using (checkTransactional_fail_connects p.connection_test_interval slot now
      sid hfreshT).1
  · rw [get_slave_transactional_unfold p name slaves slot k now false (some sid) hs hget]
    simpa using (checkTransactional_fail_connects p.connection_test_interval slot now
      sid hfreshT).1
  · rw [get_master_transactional_unfold p name slot now true cr hm,
      checkTransactional_fresh_ok _ _ _ _ _ hsessT hfreshT]
  · rw [get_slave_transactional_unfold p name slaves slot k now true cr hs hget,
      checkTransactional_fresh_ok _ _ _ _ _ hsessT hfreshT]

/-- Witness for C7 at a concrete pool with master and slave under `"a"`. -/
theorem new_session_autocommit_and_probe_commit_witness :
    (bothPool.get_master_connection "a" 0 false (some 9)).value
      = .ok ⟨some ⟨9, true⟩⟩ ∧
    (bothPool.get_slave_connection "a" 0 0 false (some 9)).value
      = .ok ⟨some ⟨9, true⟩⟩ ∧
    (bothPool.get_master_transactional_connection "a" 0 false (some 9)).value
      = .ok ⟨some ⟨9, false⟩⟩ ∧
    (bothPool.get_slave_transactional_connection "a" 0 0 false (some 9)).value
      = .ok ⟨some ⟨9, false⟩⟩ ∧
    (bothPool.get_master_transactional_connection "a" 0 true none).trace
      = [.probe 2 true, .commit 2] ∧
    (bothPool.get_slave_transactional_connection "a" 0 0 true none).trace
      = [.chooseSlave 0, .probe 2 true, .commit 2] :=
  new_session_autocommit_and_probe_commit bothPool "a"
    { Slot.fresh "db" "h" 5432 "u" "pw" with transactional_connection := some ⟨2, false⟩ }
    [{ Slot.fresh "db" "h" 5432 "u" "pw" with
      transactional_connection := some ⟨2, false⟩ }]
    ⟨2, false⟩ 0 0 9 none rfl rfl rfl rfl rfl rfl

/-- On a name with a non-empty slave list, the trace of `get_slave_connection`
always opens with the choice event for index `k % length`: the selection is
exactly `random.choice`'s uniform index draw, resampled from the `k` supplied
to this call alone. -/
theorem get_slave_trace_head (p : PGWizardConnectionPool) (name : String)
    (slaves : List Slot) (k now : Nat) (probeOk : Bool) (cr : Option Nat)
    (hs : p.slave name = some slaves) (hne : slaves ≠ []) :
    (p.get_slave_connection name k now probeOk cr).trace.head?
      = some (.chooseSlave (k % slaves.length)) := by
  have hlen : 0 < slaves.length := List.length_pos.mpr hne
  have hlt : k % slaves.length < slaves.length := Nat.mod_lt _ hlen
  obtain ⟨slot, hget⟩ : ∃ slot, slaves.get? (k % slaves.length) = some slot :=
    ⟨_, List.get?_eq_get hlt⟩
  rw [get_slave_unfold p name slaves slot k now probeOk cr hs hget]
  rfl

/-- C8: on a name with `N` registered slaves, each call of
`get_slave_connection` selects slot `k % N` from the fresh randomness `k` it
is given: (a) the selection this call performs is visible as the head of its
trace; (b) among the `N` equiprobable randomness values `0..N-1`, exactly one
selects slot `i` — so a uniform draw selects each slave with probability
`1/N`; (c) every slave is reachable by some draw; (d) when `N ≥ 2`, different
draws select different slaves, so no single slave is selected on every
call. -/
theorem slave_choice_uniform (p : PGWizardConnectionPool) (name : String)
    (slaves : List Slot) (k now : Nat) (probeOk : Bool) (cr : Option Nat)
    (hs : p.slave name = some slaves) (hne : slaves ≠ []) :
    (p.get_slave_connection name k now probeOk cr).trace.head?
      = some (.chooseSlave (k % slaves.length)) ∧
    (∀ i < slaves.length,
      ((Finset.range slaves.length).filter
        (fun j => j % slaves.length = i)).card = 1) ∧
    (∀ i < slaves.length, ∃ j < slaves.length,
      (p.get_slave_connection name j now probeOk cr).trace.head?
        = some (.chooseSlave i)) ∧
    (2 ≤ slaves.length →
      (p.get_slave_connection name 0 now probeOk cr).trace.head?
        ≠ (p.get_slave_connection name 1 now probeOk cr).trace.head?) := by
  have hhead := fun j => get_slave_trace_head p name slaves j now probeOk cr hs hne
  refine ⟨hhead k, ?_, ?_, ?_⟩
  · intro i hi
    have hset : (Finset.range slaves.length).filter
        (fun j => j % slaves.length = i) = {i} := by
      ext j
      simp only [Finset.mem_filter, Finset.mem_range, Finset.mem_singleton]
      constructor
      · rintro ⟨hj, hmod⟩
        rwa [Nat.mod_eq_of_lt hj] at hmod
      · rintro rfl
        exact ⟨hi, Nat.mod_eq_of_lt hi⟩
    rw [hset, Finset.card_singleton]
  · intro i hi
    exact ⟨i, hi, by rw [hhead i, Nat.mod_eq_of_lt hi]⟩
  · intro h2
    rw [hhead 0, hhead 1, Nat.zero_mod, Nat.mod_eq_of_lt (by omega)]
    simp

/-- Witness for C8 at a pool with two slaves under `"a"`. -/
theorem slave_choice_uniform_witness :
    (twoSlavePool.get_slave_connection "a" 1 0 true none).trace.head?
      = some (.chooseSlave (1 % 2)) ∧
    (∀ i < 2, ((Finset.range 2).filter (fun j => j % 2 = i)).card = 1) ∧
    (∀ i < 2, ∃ j < 2,
      (twoSlavePool.get_slave_connection "a" j 0 true none).trace.head?
        = some (.chooseSlave i)) ∧
    (2 ≤ 2 →
      (twoSlavePool.get_slave_connection "a" 0 0 true none).trace.head?
        ≠ (twoSlavePool.get_slave_connection "a" 1 0 true none).trace.head?) :=
  slave_choice_uniform twoSlavePool "a"
    [Slot.fresh "db" "hA" 5432 "u" "pw", Slot.fresh "db" "hB" 5432 "u" "pw"]
    1 0 true none rfl (by decide)

/-- C2: a `ConnectionHandle` with `max_lifetime = L` whose session is older
than `L` replaces the session with a newly connected one on the first
`acquire()` afterwards, even though the session is healthy (the probe oracle
answers `true`) and even if the handle is inside its check-interval throttle:
the value and the stored session are the brand-new one (started now, so a
different session from the old), and a connect was performed. -/
theorem age_expiry_replaces_healthy_session (h : ConnectionHandle)
    (interval now sid lifetime : Nat) (s : SpecSession)
    (hsess : h.session = some s)
    (hlife : h.max_lifetime = some lifetime)
    (hage : s.started_at + lifetime < now) :
    (h.acquire interval now true (some sid)).value
      = .ok (some ⟨sid, now, !h.transactional⟩) ∧
    (h.acquire interval now true (some sid)).handle.session
      = some ⟨sid, now, !h.transactional⟩ ∧
    (h.acquire interval now true (some sid)).handle.session ≠ h.session ∧
    Event.connectAttempt true ∈ (h.acquire interval now true (some sid)).trace := by
  have hexp : h.expired now = true := by
    simp only [ConnectionHandle.expired, hsess, hlife]
    exact decide_eq_true hage
  refine ⟨?_, ?_, ?_, ?_⟩ <;>
    simp [ConnectionHandle.acquire, hexp, hsess]
  intro heq
  have : now = s.started_at := congrArg SpecSession.started_at heq
  omega

/-- An age-expired but healthy handle inside its throttle window. -/
def agedHandle : ConnectionHandle :=
  { transactional := false
    session := some ⟨3, 0, true⟩
    last_checked_at := some 99
    max_lifetime := some 50 }

/-- Witness for C2: `agedHandle` (lifetime 50, session started at 0) acquired
at time 100 with interval 10. -/
theorem age_expiry_replaces_healthy_session_witness :
    (agedHandle.acquire 10 100 true (some 7)).value = .ok (some ⟨7, 100, true⟩) ∧
    (agedHandle.acquire 10 100 true (some 7)).handle.session = some ⟨7, 100, true⟩ ∧
    (agedHandle.acquire 10 100 true (some 7)).handle.session ≠ agedHandle.session ∧
    Event.connectAttempt true ∈ (agedHandle.acquire 10 100 true (some 7)).trace :=
  age_expiry_replaces_healthy_session agedHandle 10 100 7 50 ⟨3, 0, true⟩
    rfl rfl (by decide)

/-- C9: the Flat Pool's `get_connection_for_writing_to` only ever returns a
handle of the named group that has `accepts_writes = true` and an open
cursor — so a handle with `accepts_writes = false`, or one without an open
cursor, is never returned — and it fails with `NoEligibleConnectionError`
exactly when the set of such handles is empty. -/
theorem writing_routes_only_to_writable_open_cursor
    (groups : String → List FlatHandle) (name : String) (k : Nat) :
    (∀ h, get_connection_for_writing_to groups name k = .ok h →
      h.accepts_writes = true ∧ h.cursor_open = true ∧ h ∈ groups name) ∧
    ((groups name).filter writableEligible = [] →
      get_connection_for_writing_to groups name k = .error .noEligibleConnection) := by
  constructor
  · intro h hok
    simp only [get_connection_for_writing_to] at hok
    cases hget : ((groups name).filter writableEligible).get?
        (k % ((groups name).filter writableEligible).length) with
    | none =>
      rw [hget] at hok
      exact Except.noConfusion hok
    | some h' =>
      rw [hget] at hok
      obtain rfl : h = h' := by
        injection hok with he
        exact he.symm
      have hmem : h ∈ (groups name).filter writableEligible := List.get?_mem hget
      have hm2 := List.mem_filter.mp hmem
      have hw := hm2.2
      simp only [writableEligible, Bool.and_eq_true] at hw
      exact ⟨hw.1, hw.2, hm2.1⟩
  · intro hempty
    simp [get_connection_for_writing_to, hempty]

/-- Modelled from the spec: a two-handle Flat Pool group under `"w"`, one
writable handle with an open cursor and one read-only handle. -/
def flatGroups : String → List FlatHandle := fun n =>
  if n = "w" then [⟨true, true, true, true⟩, ⟨false, true, true, true⟩] else []

/-- Witness for C9: the selected handle of `flatGroups` is the writable one
with the open cursor, and a group with no eligible handle fails. -/
theorem writing_routes_only_to_writable_open_cursor_witness :
    (FlatHandle.mk true true true true).accepts_writes = true ∧
    (FlatHandle.mk true true true true).cursor_open = true ∧
    FlatHandle.mk true true true true ∈ flatGroups "w" ∧
    get_connection_for_writing_to flatGroups "x" 0 = .error .noEligibleConnection :=
  ⟨((writing_routes_only_to_writable_open_cursor flatGroups "w" 0).1 _ rfl).1,
   ((writing_routes_only_to_writable_open_cursor flatGroups "w" 0).1 _ rfl).2.1,
   ((writing_routes_only_to_writable_open_cursor flatGroups "w" 0).1 _ rfl).2.2,
   (writing_routes_only_to_writable_open_cursor flatGroups "x" 0).2 rfl⟩
